import Mathlib

/-
Verification of the per-connection chat/audio session implemented by
ChatConsumer in src/consumers.py (Django Channels consumer).

Embedding notes.
* Byte sequences are lists of naturals; the temp file backing the audio
  buffer is modelled by its contents.
* json.loads is an external library call: a text frame is represented by
  the outcome of parsing it, Option JsonValue (none when json.loads raises).
  A Python dict produced by json.loads keeps the LAST occurrence of a
  duplicated key, which the lookup function dictGet reproduces.
* The two OpenAI calls are external and fallible; they are modelled as
  fields of an AIBackend record returning Except, and the trace of calls
  made is recorded as events (OutEvent.transcribeCall / correctCall) so
  that claims about which backend call receives which bytes are statable.
* A Python exception escaping the handler is modelled by Except.error.
  In receive, data.get on a JSON value that is not an object raises
  AttributeError; everything else in the handler is total.
-/

namespace AIBase

/-- Byte sequences, as read from or appended to the audio temp file. -/
abbrev Bytes := List Nat

/-- JSON values as returned by json.loads. -/
inductive JsonValue : Type
  | obj (fields : List (String × JsonValue))
  | arr (elems : List JsonValue)
  | str (s : String)
  | num (n : Int)
  | boolean (b : Bool)
  | null

/-- Python dict lookup on the association list produced by json.loads:
a duplicated key keeps its last occurrence. -/
def dictGet (fields : List (String × JsonValue)) (key : String) : Option JsonValue :=
  match fields with
  | [] => none
  | (k, v) :: rest =>
      match dictGet rest key with
      | some w => some w
      | none => if k = key then some v else none

/-- The Python comparison data.get("action") == "finalize_audio": true exactly
when the looked-up value is the string "finalize_audio". -/
def isFinalizeAction (v : Option JsonValue) : Bool :=
  match v with
  | some (JsonValue.str s) => s = "finalize_audio"
  | _ => false

/-- The whitespace class of Python str.strip: space, tab, newline, vertical
tab, form feed, carriage return. -/
def isPythonSpace (c : Char) : Bool :=
  c = ' ' || c = '\t' || c = '\n' || c = '\x0b' || c = '\x0c' || c = '\r'

/-- Python str.strip with no arguments: drop whitespace from both ends. -/
def pyStrip (s : String) : String :=
  String.mk (((s.data.dropWhile isPythonSpace).reverse.dropWhile isPythonSpace).reverse)

/-- The external OpenAI backend: availability of the API key, the Whisper
transcription call and the chat-completion correction call.  transcribe
returns the optional text field of the transcript object on success
(transcript.get applies a default when the field is missing); either call
may fail, carrying the stringified exception.  correct takes the raw value
passed to it (a JSON value: the plain-message path forwards data["message"]
unchecked, the finalize path passes a string). -/
structure AIBackend where
  apiKeyConfigured : Bool
  transcribe : Bytes → Except String (Option String)
  correct : JsonValue → Except String String

/-- Per-connection session state: the group name joined on connect and the
contents of the audio temp file. -/
structure SessionState where
  room_group_name : String
  audio_path : Bytes
  deriving Repr

/-- Observable effects of handling one inbound frame: outbound text frames
(private send or group broadcast), group membership operations, and the
external AI calls that were attempted. -/
inductive OutEvent : Type
  | privateSend (message : String)
  | groupSend (group : String) (message : String)
  | groupAdd (group : String)
  | groupDiscard (group : String)
  | transcribeCall (audio : Bytes)
  | correctCall (input : JsonValue)

/-- An inbound frame: a binary frame carrying bytes, or a text frame
represented by the result of json.loads on its payload. -/
inductive Frame : Type
  | binary (bytes_data : Bytes)
  | text (parsed : Option JsonValue)

/-- ChatConsumer.connect: build the group name, create the empty audio temp
file, join the group and acknowledge to the caller only. -/
def connect (room_name : String) : SessionState × List OutEvent :=
  ({ room_group_name := "chat_" ++ room_name, audio_path := [] },
   [OutEvent.groupAdd ("chat_" ++ room_name),
    OutEvent.privateSend ("Connected to room " ++ room_name)])

/-- ChatConsumer.disconnect: remove the temp file (best effort) and leave
the group. -/
def disconnect (st : SessionState) : SessionState × List OutEvent :=
  ({ st with audio_path := [] }, [OutEvent.groupDiscard st.room_group_name])

/-- ChatConsumer.get_ai_correction: call the chat completion, strip the
content on success; any exception is caught and stringified. -/
def get_ai_correction (backend : AIBackend) (text : JsonValue) : String :=
  match backend.correct text with
  | Except.ok content => pyStrip content
  | Except.error e => "AI error: " ++ e

/-- ChatConsumer.receive, one inbound frame.  Returns the updated state and
the effects, or Except.error when a Python exception escapes the handler
(data.get on a non-dict JSON value raises AttributeError).  A falsy (empty)
binary payload is skipped by the bytes_data truthiness check. -/
def receive (backend : AIBackend) (st : SessionState) (frame : Frame) :
    Except String (SessionState × List OutEvent) :=
  match frame with
  | Frame.binary bytes_data =>
      if bytes_data.isEmpty then Except.ok (st, [])
      else Except.ok ({ st with audio_path := st.audio_path ++ bytes_data }, [])
  | Frame.text parsed =>
      match parsed with
      | none => Except.ok (st, [])
      | some (JsonValue.obj fields) =>
          if isFinalizeAction (dictGet fields "action") then
            if backend.apiKeyConfigured = false then
              Except.ok (st, [OutEvent.privateSend "OpenAI key not configured on server."])
            else
              match backend.transcribe st.audio_path with
              | Except.error e =>
                  Except.ok (st, [OutEvent.transcribeCall st.audio_path,
                    OutEvent.privateSend ("Transcription error: " ++ e)])
              | Except.ok text_field =>
                  let user_text := pyStrip (text_field.getD "")
                  if user_text = "" then
                    Except.ok (st, [OutEvent.transcribeCall st.audio_path])
                  else
                    Except.ok (st, [OutEvent.transcribeCall st.audio_path,
                      OutEvent.correctCall (JsonValue.str user_text),
                      OutEvent.groupSend st.room_group_name
                        ("User (transcribed): " ++ user_text ++ "\nAI correction: " ++
                          get_ai_correction backend (JsonValue.str user_text))])
          else
            match dictGet fields "message" with
            | some m =>
                Except.ok (st, [OutEvent.correctCall m,
                  OutEvent.groupSend st.room_group_name (get_ai_correction backend m)])
            | none => Except.ok (st, [])
      | some _ => Except.error "AttributeError: get on non-dict JSON value"

/-- Process a sequence of inbound frames in arrival order, accumulating
effects; stops at the first escaping exception. -/
def process_frames (backend : AIBackend) (st : SessionState) (frames : List Frame) :
    Except String (SessionState × List OutEvent) :=
  match frames with
  | [] => Except.ok (st, [])
  | f :: rest =>
      match receive backend st f with
      | Except.error e => Except.error e
      | Except.ok (st1, evs1) =>
          match process_frames backend st1 rest with
          | Except.error e => Except.error e
          | Except.ok (st2, evs2) => Except.ok (st2, evs1 ++ evs2)

/-- ChatConsumer.chat_message: each group member handles a delivered group
event by sending one text frame on its own socket. -/
def chat_message (message : String) : OutEvent :=
  OutEvent.privateSend message

/-- The channel layer delivers a group_send to every member of the group,
each of which runs chat_message. -/
def group_deliver (members : List String) (message : String) : List (String × OutEvent) :=
  members.map (fun c => (c, chat_message message))

/-- The canonical finalize control frame. -/
def finalize_frame : Frame :=
  Frame.text (some (JsonValue.obj [("action", JsonValue.str "finalize_audio")]))

/-- A plain chat message frame carrying value m under the message key. -/
def message_frame (m : JsonValue) : Frame :=
  Frame.text (some (JsonValue.obj [("message", m)]))

/-- Event classifiers. -/
def isOutboundFrame : OutEvent → Bool
  | OutEvent.privateSend _ => true
  | OutEvent.groupSend _ _ => true
  | _ => false

def isPrivateSend : OutEvent → Bool
  | OutEvent.privateSend _ => true
  | _ => false

def isGroupSend : OutEvent → Bool
  | OutEvent.groupSend _ _ => true
  | _ => false

def isCorrectCall : OutEvent → Bool
  | OutEvent.correctCall _ => true
  | _ => false

def isMembershipOp : OutEvent → Bool
  | OutEvent.groupAdd _ => true
  | OutEvent.groupDiscard _ => true
  | _ => false

/-- The state a handler run ends in, when no exception escaped. -/
def resultState (r : Except String (SessionState × List OutEvent)) : Option SessionState :=
  match r with
  | Except.ok (st, _) => some st
  | Except.error _ => none

/-- The effects of a handler run; an escaped exception produced none. -/
def resultEvents (r : Except String (SessionState × List OutEvent)) : List OutEvent :=
  match r with
  | Except.ok (_, evs) => evs
  | Except.error _ => []

/-- Whether the handler run completed without an escaping exception. -/
def resultOk (r : Except String (SessionState × List OutEvent)) : Bool :=
  match r with
  | Except.ok _ => true
  | Except.error _ => false

/-- Whether a JSON value is an object (a Python dict after json.loads). -/
def isObj : JsonValue → Bool
  | JsonValue.obj _ => true
  | _ => false

/-- A concrete healthy backend for witnesses: key configured, transcription
returns "hello", correction returns "Hello!". -/
def okBackend : AIBackend :=
  { apiKeyConfigured := true,
    transcribe := fun _ => Except.ok (some "hello"),
    correct := fun _ => Except.ok "Hello!" }

/-- A concrete unconfigured backend: no API key, so every real call raises;
modelled by both calls failing with the client library diagnostic. -/
def noKeyBackend : AIBackend :=
  { apiKeyConfigured := false,
    transcribe := fun _ => Except.error "No API key provided",
    correct := fun _ => Except.error "No API key provided" }

/-- A configured backend whose transcription call times out. -/
def timeoutBackend : AIBackend :=
  { apiKeyConfigured := true,
    transcribe := fun _ => Except.error "timeout",
    correct := fun _ => Except.ok "Hello!" }

/-- A configured backend whose transcription result is whitespace only and
whose correction call fails. -/
def blankBackend : AIBackend :=
  { apiKeyConfigured := true,
    transcribe := fun _ => Except.ok (some "  "),
    correct := fun _ => Except.error "rate limit" }

end AIBase

namespace AIBase

/-- Handling a binary frame appends its bytes to the audio buffer and emits
nothing; an empty payload is skipped by the truthiness check, which is the
same append. -/
theorem receive_binary_eq (backend : AIBackend) (st : SessionState) (c : Bytes) :
    receive backend st (Frame.binary c) =
      Except.ok ({ st with audio_path := st.audio_path ++ c }, []) := by
  by_cases hc : c.isEmpty
  · have hcnil : c = [] := List.isEmpty_iff.mp hc
    subst hcnil
    simp [receive]
  · simp [receive, hc]

/-- Processing a sequence of binary frames concatenates their bytes onto the
audio buffer in arrival order and emits nothing. -/
theorem process_binary_concat (backend : AIBackend) (st : SessionState) (chunks : List Bytes) :
    process_frames backend st (chunks.map Frame.binary) =
      Except.ok ({ st with audio_path := st.audio_path ++ chunks.flatten }, []) := by
  induction chunks generalizing st with
  | nil => simp [process_frames]
  | cons c rest ih =>
      simp only [List.map_cons, process_frames, receive_binary_eq, ih, List.append_nil]
      simp [List.append_assoc]

/-- With the key configured, a finalize request always calls transcribe on
exactly the current audio buffer contents, as its first effect. -/
theorem receive_finalize_configured (backend : AIBackend) (st : SessionState)
    (hkey : backend.apiKeyConfigured = true) :
    ∃ st' evs, receive backend st finalize_frame =
      Except.ok (st', OutEvent.transcribeCall st.audio_path :: evs) := by
  cases htr : backend.transcribe st.audio_path with
  | error e =>
      exact ⟨st, [OutEvent.privateSend ("Transcription error: " ++ e)],
        by simp [receive, finalize_frame, isFinalizeAction, dictGet, hkey, htr]⟩
  | ok tf =>
      by_cases hmt : pyStrip (tf.getD "") = ""
      · exact ⟨st, [],
          by simp [receive, finalize_frame, isFinalizeAction, dictGet, hkey, htr, hmt]⟩
      · exact ⟨st, [OutEvent.correctCall (JsonValue.str (pyStrip (tf.getD ""))),
          OutEvent.groupSend st.room_group_name
            ("User (transcribed): " ++ pyStrip (tf.getD "") ++ "\nAI correction: " ++
              get_ai_correction backend (JsonValue.str (pyStrip (tf.getD ""))))],
          by simp [receive, finalize_frame, isFinalizeAction, dictGet, hkey, htr, hmt]⟩

/-- A text frame whose payload parses to a JSON object is always handled
without an escaping exception, leaves the session state unchanged, and emits
no group membership operation. -/
theorem receive_obj_total (backend : AIBackend) (st : SessionState)
    (fields : List (String × JsonValue)) :
    ∃ evs, receive backend st (Frame.text (some (JsonValue.obj fields))) =
      Except.ok (st, evs) ∧ evs.filter isMembershipOp = [] := by
  simp only [receive]
  split
  · split
    · exact ⟨_, rfl, rfl⟩
    · cases htr : backend.transcribe st.audio_path with
      | error e => exact ⟨_, rfl, rfl⟩
      | ok tf =>
          by_cases hmt : pyStrip (tf.getD "") = ""
          · simp only [hmt]
            exact ⟨_, rfl, rfl⟩
          · simp only [if_neg hmt]
            exact ⟨_, rfl, rfl⟩
  · split
    · exact ⟨_, rfl, rfl⟩
    · exact ⟨_, rfl, rfl⟩

/-- C1: every binary chunk received before a finalize request is appended to
the audio buffer in arrival order, so after connecting and receiving the
chunks the buffer holds their concatenation, and a finalize request then
passes exactly that concatenation to the transcription call. -/
theorem c1_chunks_concat_transcribed (backend : AIBackend) (room : String)
    (chunks : List Bytes) (hkey : backend.apiKeyConfigured = true) :
    process_frames backend (connect room).1 (chunks.map Frame.binary) =
      Except.ok ({ room_group_name := "chat_" ++ room, audio_path := chunks.flatten }, []) ∧
    ∃ st' evs,
      receive backend { room_group_name := "chat_" ++ room, audio_path := chunks.flatten }
        finalize_frame =
        Except.ok (st', OutEvent.transcribeCall chunks.flatten :: evs) := by
  constructor
  · simpa [connect] using process_binary_concat backend ⟨"chat_" ++ room, []⟩ chunks
  · exact receive_finalize_configured backend ⟨"chat_" ++ room, chunks.flatten⟩ hkey

/-- Witness for C1 at the chunks [1] and [2, 3] with a healthy backend. -/
theorem c1_chunks_concat_transcribed_witness :
    process_frames okBackend (connect "r").1 ([[1], [2, 3]].map Frame.binary) =
      Except.ok ({ room_group_name := "chat_r", audio_path := [1, 2, 3] }, []) ∧
    ∃ st' evs,
      receive okBackend { room_group_name := "chat_r", audio_path := [1, 2, 3] }
        finalize_frame = Except.ok (st', OutEvent.transcribeCall [1, 2, 3] :: evs) :=
  c1_chunks_concat_transcribed okBackend "r" [[1], [2, 3]] rfl

/-- C2: when a finalize request transcribes to a transcript that is non-empty
after stripping, the correction backend is called on that transcript and
exactly one combined two-line message is broadcast to the room, whose second
line carries the stripped correction on success and the stringified error on
failure. -/
theorem c2_nonempty_transcript_broadcast (backend : AIBackend) (st : SessionState)
    (tf : Option String)
    (hkey : backend.apiKeyConfigured = true)
    (htr : backend.transcribe st.audio_path = Except.ok tf)
    (hne : pyStrip (tf.getD "") ≠ "") :
    receive backend st finalize_frame =
      Except.ok (st,
        [OutEvent.transcribeCall st.audio_path,
         OutEvent.correctCall (JsonValue.str (pyStrip (tf.getD ""))),
         OutEvent.groupSend st.room_group_name
           ("User (transcribed): " ++ pyStrip (tf.getD "") ++ "\nAI correction: " ++
             get_ai_correction backend (JsonValue.str (pyStrip (tf.getD ""))))]) ∧
    (∀ r, backend.correct (JsonValue.str (pyStrip (tf.getD ""))) = Except.ok r →
        get_ai_correction backend (JsonValue.str (pyStrip (tf.getD ""))) = pyStrip r) ∧
    (∀ e, backend.correct (JsonValue.str (pyStrip (tf.getD ""))) = Except.error e →
        get_ai_correction backend (JsonValue.str (pyStrip (tf.getD ""))) = "AI error: " ++ e) := by
  refine ⟨?_, ?_, ?_⟩
  · simp [receive, finalize_frame, isFinalizeAction, dictGet, hkey, htr, hne]
  · intro r hr
    simp [get_ai_correction, hr]
  · intro e he
    simp [get_ai_correction, he]

/-- Witness for C2: a healthy backend transcribing to "hello". -/
theorem c2_nonempty_transcript_broadcast_witness :
    receive okBackend ⟨"g", [1]⟩ finalize_frame =
      Except.ok (⟨"g", [1]⟩,
        [OutEvent.transcribeCall [1],
         OutEvent.correctCall (JsonValue.str "hello"),
         OutEvent.groupSend "g" "User (transcribed): hello\nAI correction: Hello!"]) ∧
    (∀ r, okBackend.correct (JsonValue.str "hello") = Except.ok r →
        get_ai_correction okBackend (JsonValue.str "hello") = pyStrip r) ∧
    (∀ e, okBackend.correct (JsonValue.str "hello") = Except.error e →
        get_ai_correction okBackend (JsonValue.str "hello") = "AI error: " ++ e) :=
  c2_nonempty_transcript_broadcast okBackend ⟨"g", [1]⟩ (some "hello") rfl rfl (by decide)

/-- C3: when the transcription call of a finalize request fails (key
configured), the handler sends exactly one private reply carrying the
diagnostic, broadcasts nothing, and never calls the correction backend. -/
theorem c3_transcription_failure_private (backend : AIBackend) (st : SessionState) (e : String)
    (hkey : backend.apiKeyConfigured = true)
    (htr : backend.transcribe st.audio_path = Except.error e) :
    receive backend st finalize_frame =
      Except.ok (st, [OutEvent.transcribeCall st.audio_path,
        OutEvent.privateSend ("Transcription error: " ++ e)]) ∧
    (resultEvents (receive backend st finalize_frame)).filter isPrivateSend =
      [OutEvent.privateSend ("Transcription error: " ++ e)] ∧
    (resultEvents (receive backend st finalize_frame)).filter isGroupSend = [] ∧
    (resultEvents (receive backend st finalize_frame)).filter isCorrectCall = [] := by
  have h : receive backend st finalize_frame =
      Except.ok (st, [OutEvent.transcribeCall st.audio_path,
        OutEvent.privateSend ("Transcription error: " ++ e)]) := by
    simp [receive, finalize_frame, isFinalizeAction, dictGet, hkey, htr]
  refine ⟨h, ?_, ?_, ?_⟩ <;>
    simp [h, resultEvents, isPrivateSend, isGroupSend, isCorrectCall]

/-- Witness for C3: a backend whose transcription fails with "timeout". -/
theorem c3_transcription_failure_private_witness :
    receive timeoutBackend ⟨"g", [5]⟩ finalize_frame =
      Except.ok (⟨"g", [5]⟩, [OutEvent.transcribeCall [5],
        OutEvent.privateSend "Transcription error: timeout"]) ∧
    (resultEvents (receive timeoutBackend ⟨"g", [5]⟩ finalize_frame)).filter isPrivateSend =
      [OutEvent.privateSend "Transcription error: timeout"] ∧
    (resultEvents (receive timeoutBackend ⟨"g", [5]⟩ finalize_frame)).filter isGroupSend = [] ∧
    (resultEvents (receive timeoutBackend ⟨"g", [5]⟩ finalize_frame)).filter isCorrectCall = [] :=
  c3_transcription_failure_private timeoutBackend ⟨"g", [5]⟩ "timeout" rfl rfl

/-- C4: a plain message frame calls the correction backend on the carried
value and broadcasts its result to the room exactly once; the group layer
delivers the broadcast to every member, the sender included; when the
correction call fails, the broadcast carries the diagnostic string. -/
theorem c4_plain_message_broadcast (backend : AIBackend) (st : SessionState) (m : JsonValue)
    (members : List String) (sender : String) (hmem : sender ∈ members) :
    receive backend st (message_frame m) =
      Except.ok (st, [OutEvent.correctCall m,
        OutEvent.groupSend st.room_group_name (get_ai_correction backend m)]) ∧
    (resultEvents (receive backend st (message_frame m))).filter isGroupSend =
      [OutEvent.groupSend st.room_group_name (get_ai_correction backend m)] ∧
    (resultEvents (receive backend st (message_frame m))).filter isPrivateSend = [] ∧
    (∀ mem ∈ members, (mem, chat_message (get_ai_correction backend m)) ∈
        group_deliver members (get_ai_correction backend m)) ∧
    (sender, chat_message (get_ai_correction backend m)) ∈
      group_deliver members (get_ai_correction backend m) ∧
    (∀ e, backend.correct m = Except.error e →
        get_ai_correction backend m = "AI error: " ++ e) := by
  have h : receive backend st (message_frame m) =
      Except.ok (st, [OutEvent.correctCall m,
        OutEvent.groupSend st.room_group_name (get_ai_correction backend m)]) := by
    simp [receive, message_frame, isFinalizeAction, dictGet]
  have hdel : ∀ mem ∈ members, (mem, chat_message (get_ai_correction backend m)) ∈
      group_deliver members (get_ai_correction backend m) := by
    intro mem hm
    simp only [group_deliver, List.mem_map]
    exact ⟨mem, hm, rfl⟩
  refine ⟨h, ?_, ?_, hdel, hdel sender hmem, ?_⟩
  · simp [h, resultEvents, isGroupSend]
  · simp [h, resultEvents, isPrivateSend]
  · intro e he
    simp [get_ai_correction, he]

/-- Witness for C4: sender a in a two-member room, correction failing. -/
theorem c4_plain_message_broadcast_witness :
    receive noKeyBackend ⟨"g", []⟩ (message_frame (JsonValue.str "hi")) =
      Except.ok (⟨"g", []⟩, [OutEvent.correctCall (JsonValue.str "hi"),
        OutEvent.groupSend "g" (get_ai_correction noKeyBackend (JsonValue.str "hi"))]) ∧
    (resultEvents (receive noKeyBackend ⟨"g", []⟩ (message_frame (JsonValue.str "hi")))).filter
      isGroupSend =
      [OutEvent.groupSend "g" (get_ai_correction noKeyBackend (JsonValue.str "hi"))] ∧
    (resultEvents (receive noKeyBackend ⟨"g", []⟩ (message_frame (JsonValue.str "hi")))).filter
      isPrivateSend = [] ∧
    (∀ mem ∈ ["a", "b"],
        (mem, chat_message (get_ai_correction noKeyBackend (JsonValue.str "hi"))) ∈
          group_deliver ["a", "b"] (get_ai_correction noKeyBackend (JsonValue.str "hi"))) ∧
    ("a", chat_message (get_ai_correction noKeyBackend (JsonValue.str "hi"))) ∈
      group_deliver ["a", "b"] (get_ai_correction noKeyBackend (JsonValue.str "hi")) ∧
    (∀ e, noKeyBackend.correct (JsonValue.str "hi") = Except.error e →
        get_ai_correction noKeyBackend (JsonValue.str "hi") = "AI error: " ++ e) :=
  c4_plain_message_broadcast noKeyBackend ⟨"g", []⟩ (JsonValue.str "hi") ["a", "b"] "a"
    (by simp)

end AIBase

namespace AIBase

/-- C5 counterexample: with a healthy backend and bytes 1, 2 buffered, a
finalize request succeeds and broadcasts, yet the resulting state still holds
bytes 1, 2 (the buffer is not cleared), and a later finalize after appending
byte 3 passes 1, 2, 3 to transcription rather than 3 alone. -/
theorem c5_buffer_not_cleared_counterexample :
    receive okBackend ⟨"g", [1, 2]⟩ finalize_frame =
      Except.ok (⟨"g", [1, 2]⟩,
        [OutEvent.transcribeCall [1, 2],
         OutEvent.correctCall (JsonValue.str "hello"),
         OutEvent.groupSend "g" "User (transcribed): hello\nAI correction: Hello!"]) ∧
    process_frames okBackend ⟨"g", [1, 2]⟩ [finalize_frame, Frame.binary [3], finalize_frame] =
      Except.ok (⟨"g", [1, 2, 3]⟩,
        [OutEvent.transcribeCall [1, 2],
         OutEvent.correctCall (JsonValue.str "hello"),
         OutEvent.groupSend "g" "User (transcribed): hello\nAI correction: Hello!",
         OutEvent.transcribeCall [1, 2, 3],
         OutEvent.correctCall (JsonValue.str "hello"),
         OutEvent.groupSend "g" "User (transcribed): hello\nAI correction: Hello!"]) ∧
    ([1, 2, 3] : Bytes) ≠ [3] := by
  refine ⟨rfl, rfl, ?_⟩
  simp

/-- C5 amended: a finalize request never changes the session state, so the
audio buffer persists across finalize and a later finalize re-transcribes all
previously accumulated bytes plus anything appended since; the buffer is
cleared only on disconnect. -/
theorem c5_amended_buffer_persists (backend : AIBackend) (st : SessionState) (c : Bytes) :
    resultState (receive backend st finalize_frame) = some st ∧
    (disconnect st).1.audio_path = [] ∧
    resultState (receive backend st (Frame.binary c)) =
      some { st with audio_path := st.audio_path ++ c } := by
  refine ⟨?_, rfl, ?_⟩
  · obtain ⟨evs, h, -⟩ :=
      receive_obj_total backend st [("action", JsonValue.str "finalize_audio")]
    simp [finalize_frame, h, resultState]
  · simp [receive_binary_eq, resultState]

/-- C6 counterexample: with the API key unconfigured, a plain message request
does not get a private configuration-error reply; the correction failure
diagnostic is broadcast to the room instead. -/
theorem c6_message_config_error_broadcast_counterexample :
    receive noKeyBackend ⟨"g", []⟩ (message_frame (JsonValue.str "hi")) =
      Except.ok (⟨"g", []⟩,
        [OutEvent.correctCall (JsonValue.str "hi"),
         OutEvent.groupSend "g" "AI error: No API key provided"]) ∧
    (resultEvents (receive noKeyBackend ⟨"g", []⟩ (message_frame (JsonValue.str "hi")))).filter
      isPrivateSend = [] ∧
    (resultEvents (receive noKeyBackend ⟨"g", []⟩ (message_frame (JsonValue.str "hi")))).filter
      isGroupSend = [OutEvent.groupSend "g" "AI error: No API key provided"] :=
  ⟨rfl, rfl, rfl⟩

/-- C6 amended: only a finalize request checks the configuration and replies
privately with the configuration error, broadcasting nothing; a plain message
request never checks the key, and the failing correction call results in the
diagnostic being broadcast to the room with no private reply. -/
theorem c6_amended_config_error (backend : AIBackend) (st : SessionState) (m : JsonValue)
    (e : String) (hkey : backend.apiKeyConfigured = false)
    (hcorr : backend.correct m = Except.error e) :
    receive backend st finalize_frame =
      Except.ok (st, [OutEvent.privateSend "OpenAI key not configured on server."]) ∧
    (resultEvents (receive backend st finalize_frame)).filter isGroupSend = [] ∧
    receive backend st (message_frame m) =
      Except.ok (st, [OutEvent.correctCall m,
        OutEvent.groupSend st.room_group_name ("AI error: " ++ e)]) ∧
    (resultEvents (receive backend st (message_frame m))).filter isPrivateSend = [] := by
  have h1 : receive backend st finalize_frame =
      Except.ok (st, [OutEvent.privateSend "OpenAI key not configured on server."]) := by
    simp [receive, finalize_frame, isFinalizeAction, dictGet, hkey]
  have h2 : receive backend st (message_frame m) =
      Except.ok (st, [OutEvent.correctCall m,
        OutEvent.groupSend st.room_group_name ("AI error: " ++ e)]) := by
    simp [receive, message_frame, isFinalizeAction, dictGet, get_ai_correction, hcorr]
  refine ⟨h1, ?_, h2, ?_⟩
  · simp [h1, resultEvents, isGroupSend]
  · simp [h2, resultEvents, isPrivateSend]

/-- Witness for the amended C6 at the unconfigured backend. -/
theorem c6_amended_config_error_witness :
    receive noKeyBackend ⟨"g", []⟩ finalize_frame =
      Except.ok (⟨"g", []⟩, [OutEvent.privateSend "OpenAI key not configured on server."]) ∧
    (resultEvents (receive noKeyBackend ⟨"g", []⟩ finalize_frame)).filter isGroupSend = [] ∧
    receive noKeyBackend ⟨"g", []⟩ (message_frame (JsonValue.str "hi")) =
      Except.ok (⟨"g", []⟩, [OutEvent.correctCall (JsonValue.str "hi"),
        OutEvent.groupSend "g" "AI error: No API key provided"]) ∧
    (resultEvents (receive noKeyBackend ⟨"g", []⟩
      (message_frame (JsonValue.str "hi")))).filter isPrivateSend = [] :=
  c6_amended_config_error noKeyBackend ⟨"g", []⟩ (JsonValue.str "hi")
    "No API key provided" rfl rfl

/-- C7 counterexample: a payload that parses to a JSON array (well-formed
JSON, matching neither accepted shape) makes the handler raise an
AttributeError from data.get instead of being silently ignored. -/
theorem c7_nondict_payload_raises_counterexample :
    receive okBackend ⟨"g", []⟩ (Frame.text (some (JsonValue.arr []))) =
      Except.error "AttributeError: get on non-dict JSON value" ∧
    resultOk (receive okBackend ⟨"g", []⟩ (Frame.text (some (JsonValue.arr [])))) = false :=
  ⟨rfl, rfl⟩

/-- C7 amended: payloads that fail JSON parsing, or parse to a JSON object
matching neither shape, are silently ignored with no outbound frame and no
failure; but payloads parsing to a non-object JSON value raise an uncaught
AttributeError in the handler (still with no outbound frame). -/
theorem c7_amended_malformed_silent (backend : AIBackend) (st : SessionState) :
    receive backend st (Frame.text none) = Except.ok (st, []) ∧
    (∀ fields, isFinalizeAction (dictGet fields "action") = false →
        dictGet fields "message" = none →
        receive backend st (Frame.text (some (JsonValue.obj fields))) =
          Except.ok (st, [])) ∧
    (∀ v, isObj v = false →
        resultOk (receive backend st (Frame.text (some v))) = false ∧
        resultEvents (receive backend st (Frame.text (some v))) = []) := by
  refine ⟨rfl, ?_, ?_⟩
  · intro fields h1 h2
    simp [receive, h1, h2]
  · intro v hv
    cases v with
    | obj fields => simp [isObj] at hv
    | arr l => exact ⟨rfl, rfl⟩
    | str s => exact ⟨rfl, rfl⟩
    | num n => exact ⟨rfl, rfl⟩
    | boolean b => exact ⟨rfl, rfl⟩
    | null => exact ⟨rfl, rfl⟩

/-- Witness for the amended C7: an object with only a reserved field is
silently ignored. -/
theorem c7_amended_malformed_silent_witness :
    receive okBackend ⟨"g", []⟩
      (Frame.text (some (JsonValue.obj [("ping", JsonValue.null)]))) =
      Except.ok (⟨"g", []⟩, []) :=
  (c7_amended_malformed_silent okBackend ⟨"g", []⟩).2.1 [("ping", JsonValue.null)] rfl rfl

/-- C8: a finalize request whose transcription succeeds with text that strips
to empty produces only the transcription call itself: no outbound frame of
either kind and no correction call. -/
theorem c8_blank_transcript_silent (backend : AIBackend) (st : SessionState)
    (tf : Option String)
    (hkey : backend.apiKeyConfigured = true)
    (htr : backend.transcribe st.audio_path = Except.ok tf)
    (hblank : pyStrip (tf.getD "") = "") :
    receive backend st finalize_frame =
      Except.ok (st, [OutEvent.transcribeCall st.audio_path]) ∧
    (resultEvents (receive backend st finalize_frame)).filter isOutboundFrame = [] ∧
    (resultEvents (receive backend st finalize_frame)).filter isCorrectCall = [] := by
  have h : receive backend st finalize_frame =
      Except.ok (st, [OutEvent.transcribeCall st.audio_path]) := by
    simp [receive, finalize_frame, isFinalizeAction, dictGet, hkey, htr, hblank]
  refine ⟨h, ?_, ?_⟩ <;> simp [h, resultEvents, isOutboundFrame, isCorrectCall]

/-- Witness for C8: a backend transcribing to whitespace only. -/
theorem c8_blank_transcript_silent_witness :
    receive blankBackend ⟨"g", []⟩ finalize_frame =
      Except.ok (⟨"g", []⟩, [OutEvent.transcribeCall []]) ∧
    (resultEvents (receive blankBackend ⟨"g", []⟩ finalize_frame)).filter
      isOutboundFrame = [] ∧
    (resultEvents (receive blankBackend ⟨"g", []⟩ finalize_frame)).filter
      isCorrectCall = [] :=
  c8_blank_transcript_silent blankBackend ⟨"g", []⟩ (some "  ") rfl rfl (by decide)

/-- C9: any text frame whose payload parses to a JSON object is handled to
completion with no escaping exception, whatever the backend calls do: the
session state (room group and audio buffer) is unchanged and no group
membership operation is emitted, so subsequent frames find the session as it
was. -/
theorem c9_ai_failure_isolated (backend : AIBackend) (st : SessionState)
    (fields : List (String × JsonValue)) :
    resultOk (receive backend st (Frame.text (some (JsonValue.obj fields)))) = true ∧
    resultState (receive backend st (Frame.text (some (JsonValue.obj fields)))) = some st ∧
    (resultEvents (receive backend st (Frame.text (some (JsonValue.obj fields))))).filter
      isMembershipOp = [] := by
  obtain ⟨evs, h, hm⟩ := receive_obj_total backend st fields
  refine ⟨?_, ?_, ?_⟩ <;> simp [h, resultOk, resultState, resultEvents, hm]

/-- C10: a payload carrying both the finalize action and a message key is
dispatched on the action key alone: the handler behaves exactly as on the
same payload without the message key. -/
theorem c10_action_key_priority (backend : AIBackend) (st : SessionState) (m : JsonValue) :
    receive backend st (Frame.text (some (JsonValue.obj
      [("action", JsonValue.str "finalize_audio"), ("message", m)]))) =
    receive backend st finalize_frame := rfl

end AIBase
